import Mathlib

/-!
Shallow embedding of the escalation / knowledge-cache subsystem of
`src/python-agent/voice_agent.py` (class `VoiceReceptionistAgent`, the
module-level webhook handler and the `active_sessions` registry), together
with theorems settling the specification claims about it.

Modelling conventions:
* Python strings are Lean `String`; absent JSON/dict fields are `Option`.
* Event-loop timestamps (Python floats used only for subtraction and
  comparison against integer intervals) are modelled as `Int`.
* Python dicts keyed by strings are association lists with dict update
  (replace-in-place or append) and dict deletion (remove the key).
* The float comparison `similarity > 0.7` on `len(common)/len(union)` is
  modelled as the exact rational comparison `|common| / |union| > 7/10`.
  For every word-set size below 10^7 the two agree: the nearest double to a
  ratio `c/u` differs from `c/u` by less than `2^-53`, while any ratio
  distinct from `7/10` differs from it by at least `1/(10*u)`.
* Backend HTTP calls and the LLM session are collaborators: each operation
  takes the collaborator's observable outcome (status + parsed body, or a
  raised exception) as an explicit argument, and session side effects are
  recorded as an `Action` trace.
-/

namespace VoiceAgent

/-! ## Association-list model of Python dicts -/

/-- First-match lookup, `d[k]` / `k in d` for a Python dict modelled as an
association list (keys are unique in an actual dict). -/
def lookupAssoc {α : Type} : List (String × α) → String → Option α
  | [], _ => none
  | p :: rest, k => if p.1 = k then some p.2 else lookupAssoc rest k

/-- `del d[k]`: remove the key's binding. -/
def eraseKey {α : Type} (l : List (String × α)) (k : String) : List (String × α) :=
  l.filter (fun p => p.1 != k)

/-- `d[k] = v`: replace the binding in place if the key is present, else
append a new binding. -/
def insertAssoc {α : Type} : List (String × α) → String → α → List (String × α)
  | [], k, v => [(k, v)]
  | p :: rest, k, v => if p.1 = k then (k, v) :: rest else p :: insertAssoc rest k v

/-! ## Tokenization and duplicate detection
(`VoiceReceptionistAgent.check_duplicate_request`, voice_agent.py:212-243) -/

/-- Split a character stream at whitespace runs into non-empty words,
`acc` holding the reversed characters of the word in progress. -/
def splitWsAux : List Char → List Char → List String
  | [], acc => if acc.isEmpty then [] else [String.mk acc.reverse]
  | c :: cs, acc =>
    if c.isWhitespace then
      (if acc.isEmpty then splitWsAux cs [] else String.mk acc.reverse :: splitWsAux cs [])
    else splitWsAux cs (c :: acc)

/-- `question.lower().split()`: lowercase, then split on whitespace runs,
discarding empty fragments (the repository's questions are ASCII, where
`Char.toLower` agrees with Python `str.lower`). -/
def pyWords (s : String) : List String :=
  splitWsAux (s.data.map Char.toLower) []

/-- `set(question.lower().split())`. -/
def wordSet (s : String) : Finset String :=
  (pyWords s).toFinset

/-- One entry of the cached pending-help-request list, as consumed by
`check_duplicate_request` via `request.get("question", "")` and
`request.get("callerId", "")`; `none` models an absent field. -/
structure HelpRequest where
  id : String
  question : Option String
  callerId : Option String
  deriving DecidableEq, Repr

/-- The dict returned by `check_duplicate_request`. -/
inductive DupResult where
  | isDup (existing : HelpRequest) (similarity_score : ℚ)
  | notDup
  deriving DecidableEq, Repr

/-- Loop body of `check_duplicate_request` over `self.pending_help_requests`.
The Python body divides by `len(question_words.union(existing_words))`
unguarded in the cross-caller check; a zero-sized union is modelled as
`Except.error "ZeroDivisionError"`. -/
def checkDuplicateAux (qw : Finset String) (caller_id : String) :
    List HelpRequest → Except String DupResult
  | [] => Except.ok DupResult.notDup
  | r :: rest =>
    let ew := wordSet (r.question.getD "")
    let existing_caller := r.callerId.getD ""
    let common := qw ∩ ew
    let union := qw ∪ ew
    if existing_caller = caller_id ∧ 2 ≤ common.card then
      Except.ok (DupResult.isDup r ((common.card : ℚ) / (union.card : ℚ)))
    else if union.card = 0 then
      Except.error "ZeroDivisionError"
    else if (7 : ℚ) / 10 < (common.card : ℚ) / (union.card : ℚ) then
      Except.ok (DupResult.isDup r ((common.card : ℚ) / (union.card : ℚ)))
    else
      checkDuplicateAux qw caller_id rest

/-- `VoiceReceptionistAgent.check_duplicate_request(question, caller_id)`
run against a cached pending list. -/
def check_duplicate_request (pending_help_requests : List HelpRequest)
    (question : String) (caller_id : String) : Except String DupResult :=
  checkDuplicateAux (wordSet question) caller_id pending_help_requests

/-! ## Knowledge-base cache (`load_knowledge_base`, voice_agent.py:88-138) -/

/-- Cache fields `knowledge_base_content` / `last_knowledge_update`. -/
structure KBState where
  content : String
  lastUpdate : Int
  deriving DecidableEq, Repr

/-- `self.knowledge_refresh_interval = 60`. -/
def knowledge_refresh_interval : Int := 60

/-- Observable outcome of the `GET /api/knowledge` collaborator call:
an HTTP response carrying a status and the parsed `items` list
(question/answer pairs), or a raised exception. -/
inductive KBFetchResult where
  | response (status : Nat) (entries : List (String × String))
  | exn
  deriving DecidableEq, Repr

/-- The claim taxonomy's failing backend call: non-2xx status or exception. -/
def KBFetchResult.failed : KBFetchResult → Prop
  | .response status _ => status < 200 ∨ 300 ≤ status
  | .exn => True

instance : DecidablePred KBFetchResult.failed := by
  intro f
  cases f <;> simp [KBFetchResult.failed] <;> infer_instance

/-- The `knowledge_text` built from the entries on a 200 response. -/
def formatKnowledge (entries : List (String × String)) : String :=
  "KNOWLEDGE BASE:\n\n" ++
    String.join (entries.map (fun e => "Q: " ++ e.1 ++ "\n" ++ "A: " ++ e.2 ++ "\n\n"))

/-- `VoiceReceptionistAgent.load_knowledge_base(force_refresh)` at event-loop
time `now`, given the backend call's outcome. Returns the string the Python
coroutine returns together with the updated cache fields. The refresh guard
is `force_refresh or not self.knowledge_base_content or
now - self.last_knowledge_update > self.knowledge_refresh_interval`;
Python string truthiness makes the middle test `content = ""`. -/
def load_knowledge_base (st : KBState) (force_refresh : Bool) (now : Int)
    (fetch : KBFetchResult) : String × KBState :=
  if force_refresh = true ∨ st.content = "" ∨
      knowledge_refresh_interval < now - st.lastUpdate then
    match fetch with
    | .response status entries =>
      if status = 200 then
        if entries ≠ [] then
          let knowledge_text := formatKnowledge entries
          (knowledge_text, ⟨knowledge_text, now⟩)
        else
          ("KNOWLEDGE BASE: Empty", ⟨"KNOWLEDGE BASE: Empty", now⟩)
      else
        (if st.content ≠ "" then st.content else "KNOWLEDGE BASE: Unavailable", st)
    | .exn =>
      (if st.content ≠ "" then st.content else "KNOWLEDGE BASE: Error loading", st)
  else
    (st.content, st)

/-! ## Agent state, sessions, delivery
(`handle_resolved_request`, voice_agent.py:356-394; `active_sessions`,
voice_agent.py:70) -/

/-- A value of `self.pending_requests[request_id]`
(voice_agent.py:321-326). -/
structure PendingInfo where
  caller_id : String
  caller_phone : Option String
  question : String
  created_at : Int
  deriving DecidableEq, Repr

/-- The mutable instance state of `VoiceReceptionistAgent` touched by the
claims: the in-flight map `self.pending_requests` and the knowledge cache. -/
structure AgentState where
  pending_requests : List (String × PendingInfo)
  kb : KBState
  deriving DecidableEq, Repr

/-- State of `VoiceReceptionistAgent.__init__`: empty in-flight map, empty
knowledge cache, `last_knowledge_update = 0`. -/
def initialAgentState : AgentState :=
  { pending_requests := [], kb := ⟨"", 0⟩ }

/-- A live `AgentSession` handle stored in `active_sessions`;
`generateReplyFails` models whether its `generate_reply` call raises. -/
structure Session where
  name : String
  generateReplyFails : Bool
  deriving DecidableEq, Repr

/-- Observable side effects of delivery and webhook handling. -/
inductive Action where
  | generateReply (callerId : String) (instructions : String)
  | warnNoSession (callerId : Option String)
  | warnUnknownRequest (requestId : Option String)
  | errorDelivering (callerId : String)
  | refreshKnowledge
  deriving DecidableEq, Repr

/-- Does the action invoke a session's `generate_reply`? -/
def Action.touchesSession : Action → Bool
  | .generateReply _ _ => true
  | _ => false

/-- Python f-string interpolation of a possibly-`None` value. -/
def pyStr : Option String → String
  | none => "None"
  | some s => s

/-- The `instructions` f-string of voice_agent.py:375-376. -/
def deliveryInstructions (answer : String) : String :=
  "The supervisor has provided this answer to the caller's question: " ++ answer ++
    ". Deliver this answer naturally and ask if there's anything else you can help with."

/-- The fields `handle_resolved_request` reads from the webhook JSON body
via `request_data.get(...)`. -/
structure ResolvedData where
  requestId : Option String
  answer : Option String
  callerId : Option String
  deriving DecidableEq, Repr

/-- `VoiceReceptionistAgent.handle_resolved_request(request_data)` against
the session registry `active_sessions`, at event-loop time `now`, where
`kbFetch` is the outcome of the final forced knowledge refresh. Returns the
updated instance state and the trace of session-level effects. -/
def handle_resolved_request (st : AgentState) (active_sessions : List (String × Session))
    (data : ResolvedData) (kbFetch : KBFetchResult) (now : Int) :
    AgentState × List Action :=
  let known : Bool :=
    match data.requestId with
    | some rid => (lookupAssoc st.pending_requests rid).isSome
    | none => false
  let (pending', acts) :=
    if known then
      let deliverActs : List Action :=
        match data.callerId with
        | some cid =>
          match lookupAssoc active_sessions cid with
          | some session =>
            if session.generateReplyFails then
              [Action.generateReply cid (deliveryInstructions (pyStr data.answer)),
               Action.errorDelivering cid]
            else
              [Action.generateReply cid (deliveryInstructions (pyStr data.answer))]
          | none => [Action.warnNoSession (some cid)]
        | none => [Action.warnNoSession none]
      (eraseKey st.pending_requests (data.requestId.getD ""), deliverActs)
    else
      (st.pending_requests, [Action.warnUnknownRequest data.requestId])
  let (_, kb') := load_knowledge_base st.kb true now kbFetch
  ({ pending_requests := pending', kb := kb' }, acts ++ [Action.refreshKnowledge])

/-! ## Escalation creation (`create_help_request`, voice_agent.py:293-336) -/

/-- Python truthiness of an optional string argument. -/
def optTruthy : Option String → Bool
  | none => false
  | some s => s != ""

/-- The JSON body posted to `POST /api/help-requests`; `none` in an optional
field means the key is omitted from the dict, not sent as null. -/
structure CreateRequestBody where
  question : String
  callerId : Option String
  callerPhone : Option String
  metadata_agent : String
  metadata_escalated_at : Int
  metadata_confidence : ℚ
  deriving DecidableEq, Repr

/-- Observable outcome of the `POST /api/help-requests` collaborator call:
a status plus the parsed body's `id` field, or a raised exception. -/
inductive CreateResponse where
  | response (status : Nat) (returnedId : Option String)
  | exn
  deriving DecidableEq, Repr

/-- `VoiceReceptionistAgent.create_help_request(question, caller_id,
caller_phone, confidence)` at event-loop time `now`, given the backend
call's outcome. Returns the request body sent, the returned Python value
(`request_id` or `None`), and the updated instance state. -/
def create_help_request (st : AgentState) (agent_name : String) (question : String)
    (caller_id caller_phone : Option String) (confidence : ℚ) (now : Int)
    (resp : CreateResponse) : CreateRequestBody × Option String × AgentState :=
  let data : CreateRequestBody :=
    { question := question
      callerId := if optTruthy caller_id then caller_id else none
      callerPhone := if optTruthy caller_phone then caller_phone else none
      metadata_agent := agent_name
      metadata_escalated_at := now
      metadata_confidence := confidence }
  match resp with
  | .response status returnedId =>
    if status = 201 then
      let info : PendingInfo := ⟨caller_id.getD "", caller_phone, question, now⟩
      let st' :=
        if optTruthy returnedId ∧ optTruthy caller_id then
          { st with pending_requests :=
              insertAssoc st.pending_requests (returnedId.getD "") info }
        else st
      (data, returnedId, st')
    else
      (data, none, st)
  | .exn => (data, none, st)

/-! ## Webhook signature verification and handler
(`verify_webhook_signature`, voice_agent.py:338-354;
`webhook_handler`, voice_agent.py:397-425) -/

/-- Strip the optional `sha256=` header prefix (voice_agent.py:351-352). -/
def stripSigScheme (signature : String) : String :=
  if signature.startsWith "sha256=" then signature.drop 7 else signature

/-- `VoiceReceptionistAgent.verify_webhook_signature(payload, signature)`.
The HMAC-SHA256 hex digest of `hashlib`/`hmac` is a collaborator, passed in
as `hmacSha256Hex secret payloadBytes`; `hmac.compare_digest` is
constant-time string equality. `webhook_secret = none` models an unset
`WEBHOOK_SECRET` environment variable. -/
def verify_webhook_signature (hmacSha256Hex : String → List Nat → String)
    (webhook_secret : Option String) (payload : List Nat) (signature : String) : Bool :=
  match webhook_secret with
  | none => true
  | some secret => hmacSha256Hex secret payload == stripSigScheme signature

/-- Outcome of `json.loads(payload.decode())` plus the `type` field lookup:
either a parsed body or a raised exception. -/
inductive ParsedPayload where
  | parsed (type : Option String) (data : ResolvedData)
  | malformed
  deriving DecidableEq, Repr

/-- An HTTP response from the webhook server. -/
inductive WebhookResponse where
  | text (status : Nat) (body : String)
  | receivedJson (requestId : Option String)
  deriving DecidableEq, Repr

/-- HTTP status of a webhook response (`receivedJson` is aiohttp's
`web.json_response`, status 200). -/
def WebhookResponse.status : WebhookResponse → Nat
  | .text s _ => s
  | .receivedJson _ => 200

/-- The module-level `webhook_handler(request)` (voice_agent.py:397-425).

`sigHeader` is `request.headers.get('X-Webhook-Signature', '')` with `none`
for an absent header; `payload` the raw body bytes; `parseJson` the
`json.loads` collaborator; `active_sessions` the module-level session
registry; `liveAgent` the state of the long-lived agent instance created by
`entrypoint` — which the handler never receives: voice_agent.py:406
constructs a fresh `VoiceReceptionistAgent()` per request, so dispatch runs
against `initialAgentState` (whose `pending_requests` is empty) and the
live instance's state is returned untouched. -/
def webhook_handler (webhook_secret : Option String)
    (hmacSha256Hex : String → List Nat → String)
    (parseJson : List Nat → ParsedPayload)
    (sigHeader : Option String) (payload : List Nat)
    (active_sessions : List (String × Session)) (liveAgent : AgentState)
    (kbFetch : KBFetchResult) (now : Int) :
    WebhookResponse × List Action × AgentState :=
  if verify_webhook_signature hmacSha256Hex webhook_secret payload (sigHeader.getD "")
      = false then
    (WebhookResponse.text 401 "Invalid signature", [], liveAgent)
  else
    match parseJson payload with
    | .malformed => (WebhookResponse.text 500 "Internal server error", [], liveAgent)
    | .parsed ty data =>
      if ty = some "help_request_resolved" then
        (WebhookResponse.receivedJson data.requestId,
         (handle_resolved_request initialAgentState active_sessions data kbFetch now).2,
         liveAgent)
      else
        (WebhookResponse.text 400 "Unknown webhook type", [], liveAgent)

/-! ## Helper lemmas -/

@[simp]
theorem lookupAssoc_nil {α : Type} (k : String) : lookupAssoc ([] : List (String × α)) k = none :=
  rfl

@[simp]
theorem lookupAssoc_cons {α : Type} (p : String × α) (rest : List (String × α)) (k : String) :
    lookupAssoc (p :: rest) k = if p.1 = k then some p.2 else lookupAssoc rest k :=
  rfl

theorem lookupAssoc_eraseKey_self {α : Type} (l : List (String × α)) (k : String) :
    lookupAssoc (eraseKey l k) k = none := by
  induction l with
  | nil => rfl
  | cons p rest ih =>
    simp only [eraseKey, List.filter_cons] at *
    by_cases h : p.1 = k
    · simpa [h] using ih
    · simpa [h] using ih

theorem lookupAssoc_eraseKey_ne {α : Type} (l : List (String × α)) (k k' : String)
    (h : k' ≠ k) : lookupAssoc (eraseKey l k) k' = lookupAssoc l k' := by
  induction l with
  | nil => rfl
  | cons p rest ih =>
    simp only [eraseKey, List.filter_cons] at *
    by_cases hp : p.1 = k
    · simp [hp, ih, Ne.symm h]
    · simp [hp]
      by_cases hk' : p.1 = k'
      · simp [hk']
      · simp [hk', ih]

theorem lookupAssoc_insertAssoc_self {α : Type} (l : List (String × α)) (k : String) (v : α) :
    lookupAssoc (insertAssoc l k v) k = some v := by
  induction l with
  | nil => simp [insertAssoc]
  | cons p rest ih =>
    simp only [insertAssoc]
    by_cases h : p.1 = k
    · simp [h]
    · simp [h, ih]

theorem formatKnowledge_ne_empty (entries : List (String × String)) :
    formatKnowledge entries ≠ "" := by
  intro h
  have hlen := congrArg String.length h
  rw [formatKnowledge, String.length_append] at hlen
  have h17 : "KNOWLEDGE BASE:\n\n".length = 17 := rfl
  have h0 : ("" : String).length = 0 := rfl
  rw [h17, h0] at hlen
  omega

theorem load_knowledge_base_preserves_nonempty (st : KBState) (force_refresh : Bool)
    (now : Int) (fetch : KBFetchResult) (h : st.content ≠ "") :
    ((load_knowledge_base st force_refresh now fetch).2).content ≠ "" := by
  unfold load_knowledge_base
  split
  · cases fetch with
    | response status entries =>
      by_cases h200 : status = 200
      · by_cases he : entries = []
        · simp [h200, he]
        · simpa [h200, he] using formatKnowledge_ne_empty entries
      · simpa [h200] using h
    | exn => simpa using h
  · simpa using h

/-- Exact form of the cross-caller threshold test: for a non-empty union,
`|common| / |union| > 7/10` is the integer comparison `7|union| < 10|common|`. -/
theorem cross_threshold_iff (c u : ℕ) (hu : u ≠ 0) :
    ((7 : ℚ) / 10 < (c : ℚ) / (u : ℚ)) ↔ 7 * u < 10 * c := by
  have hu' : (0 : ℚ) < (u : ℚ) := by exact_mod_cast Nat.pos_of_ne_zero hu
  rw [div_lt_div_iff₀ (by norm_num) hu', mul_comm (c : ℚ) 10]
  exact_mod_cast Iff.rfl

/-- Behaviour of `check_duplicate_request` on a one-entry pending cache,
with the threshold test in integer form. -/
theorem checkDuplicate_single (question caller_id : String) (r : HelpRequest) :
    check_duplicate_request [r] question caller_id =
      (if r.callerId.getD "" = caller_id ∧
          2 ≤ ((wordSet question) ∩ (wordSet (r.question.getD ""))).card then
        Except.ok (DupResult.isDup r
          ((((wordSet question) ∩ (wordSet (r.question.getD ""))).card : ℚ) /
           (((wordSet question) ∪ (wordSet (r.question.getD ""))).card : ℚ)))
      else if ((wordSet question) ∪ (wordSet (r.question.getD ""))).card = 0 then
        Except.error "ZeroDivisionError"
      else if 7 * ((wordSet question) ∪ (wordSet (r.question.getD ""))).card
          < 10 * ((wordSet question) ∩ (wordSet (r.question.getD ""))).card then
        Except.ok (DupResult.isDup r
          ((((wordSet question) ∩ (wordSet (r.question.getD ""))).card : ℚ) /
           (((wordSet question) ∪ (wordSet (r.question.getD ""))).card : ℚ)))
      else
        Except.ok DupResult.notDup) := by
  simp only [check_duplicate_request, checkDuplicateAux]
  by_cases h1 : r.callerId.getD "" = caller_id ∧
      2 ≤ ((wordSet question) ∩ (wordSet (r.question.getD ""))).card
  · simp [h1]
  · rw [if_neg h1, if_neg h1]
    by_cases h2 : ((wordSet question) ∪ (wordSet (r.question.getD ""))).card = 0
    · simp [h2]
    · rw [if_neg h2, if_neg h2]
      exact if_congr (cross_threshold_iff _ _ h2) rfl rfl

/-- The request body sent by `create_help_request` is the same whatever the
backend's response turns out to be. -/
theorem create_help_request_body (st : AgentState) (agent_name question : String)
    (caller_id caller_phone : Option String) (confidence : ℚ) (now : Int)
    (resp : CreateResponse) :
    (create_help_request st agent_name question caller_id caller_phone confidence
        now resp).1 =
      { question := question
        callerId := if optTruthy caller_id then caller_id else none
        callerPhone := if optTruthy caller_phone then caller_phone else none
        metadata_agent := agent_name
        metadata_escalated_at := now
        metadata_confidence := confidence } := by
  cases resp with
  | response status returnedId =>
    by_cases h : status = 201 <;> simp [create_help_request, h]
  | exn => rfl

/-! ## Claim theorems -/

/-- C2, counterexample: two questions from different callers with word-set
Jaccard similarity exactly 0.7 (7 common words, union of 10) are NOT
declared duplicate — the code's test `similarity > 0.7` is strict, so the
claimed boundary behaviour "exactly at 0.7 → Duplicate" fails. -/
theorem C2_counterexample_exact_seventy_percent :
    check_duplicate_request [⟨"e1", some "a b c d e f g z", some "caller2"⟩]
      "a b c d e f g x y" "caller1" = Except.ok DupResult.notDup := by
  rw [checkDuplicate_single]
  rfl

/-- C2, amended: for a pending entry on which the same-caller rule does not
fire and whose union with the new question's word set is non-empty,
duplicate detection declares `Duplicate` exactly when the Jaccard
similarity is strictly greater than 0.7 (in integer form,
`7|union| < 10|common|`), and declares no duplicate when the similarity is
at or below 0.7. -/
theorem C2_cross_caller_strictly_above_seventy
    (question caller_id : String) (r : HelpRequest)
    (hsame : ¬ (r.callerId.getD "" = caller_id ∧
      2 ≤ ((wordSet question) ∩ (wordSet (r.question.getD ""))).card))
    (hu : ((wordSet question) ∪ (wordSet (r.question.getD ""))).card ≠ 0) :
    (check_duplicate_request [r] question caller_id =
        Except.ok (DupResult.isDup r
          ((((wordSet question) ∩ (wordSet (r.question.getD ""))).card : ℚ) /
           (((wordSet question) ∪ (wordSet (r.question.getD ""))).card : ℚ)))
      ↔ 7 * ((wordSet question) ∪ (wordSet (r.question.getD ""))).card
          < 10 * ((wordSet question) ∩ (wordSet (r.question.getD ""))).card) ∧
    (check_duplicate_request [r] question caller_id = Except.ok DupResult.notDup
      ↔ 10 * ((wordSet question) ∩ (wordSet (r.question.getD ""))).card
          ≤ 7 * ((wordSet question) ∪ (wordSet (r.question.getD ""))).card) := by
  rw [checkDuplicate_single, if_neg hsame, if_neg hu]
  by_cases hlt : 7 * ((wordSet question) ∪ (wordSet (r.question.getD ""))).card
      < 10 * ((wordSet question) ∩ (wordSet (r.question.getD ""))).card
  · rw [if_pos hlt]
    refine ⟨⟨fun _ => hlt, fun _ => rfl⟩, ⟨fun h => ?_, fun h => absurd hlt (by omega)⟩⟩
    exact absurd h (by simp)
  · rw [if_neg hlt]
    refine ⟨⟨fun h => absurd h (by simp), fun h => absurd h hlt⟩,
      ⟨fun _ => by omega, fun _ => rfl⟩⟩

/-- C2, witness: identical one-entry questions "hello world" from distinct
callers have similarity 1 > 0.7 and are declared duplicate. -/
theorem C2_cross_caller_witness :
    check_duplicate_request [⟨"e2", some "hello world", some "c2"⟩] "hello world" "c1" =
      Except.ok (DupResult.isDup ⟨"e2", some "hello world", some "c2"⟩
        (((wordSet "hello world" ∩ wordSet "hello world").card : ℚ) /
         ((wordSet "hello world" ∪ wordSet "hello world").card : ℚ))) :=
  (C2_cross_caller_strictly_above_seventy "hello world" "c1"
    ⟨"e2", some "hello world", some "c2"⟩ (by decide) (by decide)).1.mpr (by decide)

/-- C3, counterexample: a pending entry with an absent `callerId` (read back
as the empty string) matched against an empty new `callerId` DOES trigger
the same-caller rule when 2 words are shared, even at Jaccard similarity
0.2 — the code compares `existing_caller == caller_id` with no
non-emptiness guard, refuting the claim's "both non-empty" condition. -/
theorem C3_counterexample_empty_caller_ids :
    check_duplicate_request [⟨"e1", some "alpha beta y1 y2 y3 y4", none⟩]
      "alpha beta x1 x2 x3 x4" "" =
      Except.ok (DupResult.isDup ⟨"e1", some "alpha beta y1 y2 y3 y4", none⟩
        (((wordSet "alpha beta x1 x2 x3 x4" ∩ wordSet "alpha beta y1 y2 y3 y4").card : ℚ) /
         ((wordSet "alpha beta x1 x2 x3 x4" ∪ wordSet "alpha beta y1 y2 y3 y4").card : ℚ)))
      := by
  rw [checkDuplicate_single]
  rw [if_pos (by exact ⟨rfl, by decide⟩)]
  rfl

/-- C3, amended: on a pending entry whose cross-caller rule cannot fire
(similarity at most 0.7, non-empty union), the same-caller rule declares
`Duplicate` exactly when the entry's `callerId` (absent read as `""`)
equals the new `callerId` — equality of the strings, with no non-emptiness
requirement — and the word sets share at least 2 words. -/
theorem C3_same_caller_rule_string_equality
    (question caller_id : String) (r : HelpRequest)
    (hu : ((wordSet question) ∪ (wordSet (r.question.getD ""))).card ≠ 0)
    (hcross : 10 * ((wordSet question) ∩ (wordSet (r.question.getD ""))).card
      ≤ 7 * ((wordSet question) ∪ (wordSet (r.question.getD ""))).card) :
    check_duplicate_request [r] question caller_id =
        Except.ok (DupResult.isDup r
          ((((wordSet question) ∩ (wordSet (r.question.getD ""))).card : ℚ) /
           (((wordSet question) ∪ (wordSet (r.question.getD ""))).card : ℚ)))
      ↔ (r.callerId.getD "" = caller_id ∧
          2 ≤ ((wordSet question) ∩ (wordSet (r.question.getD ""))).card) := by
  rw [checkDuplicate_single]
  by_cases hsame : r.callerId.getD "" = caller_id ∧
      2 ≤ ((wordSet question) ∩ (wordSet (r.question.getD ""))).card
  · rw [if_pos hsame]
    exact ⟨fun _ => hsame, fun _ => rfl⟩
  · rw [if_neg hsame, if_neg hu, if_neg (by omega)]
    exact ⟨fun h => absurd h (by simp), fun h => absurd h hsame⟩

/-- C3, witness: the spec's own example — "what are your hours today"
against a pending "can you tell me your hours" from the same caller shares
the 2 words "your", "hours" and is declared duplicate. -/
theorem C3_same_caller_witness :
    check_duplicate_request [⟨"e3", some "can you tell me your hours", some "cA"⟩]
      "what are your hours today" "cA" =
      Except.ok (DupResult.isDup ⟨"e3", some "can you tell me your hours", some "cA"⟩
        (((wordSet "what are your hours today" ∩
            wordSet "can you tell me your hours").card : ℚ) /
         ((wordSet "what are your hours today" ∪
            wordSet "can you tell me your hours").card : ℚ))) :=
  (C3_same_caller_rule_string_equality "what are your hours today" "cA"
    ⟨"e3", some "can you tell me your hours", some "cA"⟩
    (by decide) (by decide)).mpr ⟨rfl, by decide⟩

/-- C10: duplicate detection is not total — when both the new question and
a cached entry's question tokenize to the empty word set, the cross-caller
similarity computation divides by the size of the empty union and
`check_duplicate_request` raises `ZeroDivisionError` instead of returning
a result. -/
theorem C10_empty_word_sets_division_by_zero :
    check_duplicate_request [⟨"e1", some "", some "c2"⟩] "" "c1" =
      Except.error "ZeroDivisionError" := by
  rw [checkDuplicate_single]
  rfl

/-- C5: for every delivery of a resolution whose `requestId` is a known
in-flight escalation, the in-flight entry for that `requestId` is removed
after the delivery attempt in all cases — the session registry and the
stored sessions' injection outcomes are universally quantified, covering
successful injection, an injection error, and an absent session — and no
other in-flight entry is disturbed. -/
theorem C5_delivery_always_removes_inflight_entry
    (st : AgentState) (active_sessions : List (String × Session))
    (data : ResolvedData) (kbFetch : KBFetchResult) (now : Int) (rid : String)
    (h1 : data.requestId = some rid)
    (h2 : (lookupAssoc st.pending_requests rid).isSome = true) :
    lookupAssoc
        (handle_resolved_request st active_sessions data kbFetch now).1.pending_requests
        rid = none ∧
    ∀ k, k ≠ rid →
      lookupAssoc
          (handle_resolved_request st active_sessions data kbFetch now).1.pending_requests
          k = lookupAssoc st.pending_requests k := by
  unfold handle_resolved_request
  rw [h1]
  simp only [h2, if_pos, Option.getD_some, if_true]
  exact ⟨lookupAssoc_eraseKey_self _ _, fun k hk => lookupAssoc_eraseKey_ne _ _ _ hk⟩

/-- C5, witness: the spec's session-absence scenario — an in-flight entry
for caller "X" resolved with no session registered for "X" is still
removed from the in-flight map. -/
theorem C5_witness_session_absence :
    lookupAssoc
        (handle_resolved_request
          ⟨[("id9", ⟨"X", none, "what is parking like", 50⟩)], ⟨"KB", 0⟩⟩
          [] ⟨some "id9", some "street parking only", some "X"⟩
          KBFetchResult.exn 60).1.pending_requests
        "id9" = none :=
  (C5_delivery_always_removes_inflight_entry
    ⟨[("id9", ⟨"X", none, "what is parking like", 50⟩)], ⟨"KB", 0⟩⟩
    [] ⟨some "id9", some "street parking only", some "X"⟩
    KBFetchResult.exn 60 "id9" rfl (by decide)).1

/-- C6: a delivery whose `requestId` is not a known in-flight escalation is
an idempotent no-op — the in-flight map is unchanged and no session's
`generate_reply` is invoked — for any answer and callerId in the payload;
the handler is total, so it returns normally. -/
theorem C6_delivery_unknown_requestId_noop
    (st : AgentState) (active_sessions : List (String × Session))
    (data : ResolvedData) (kbFetch : KBFetchResult) (now : Int)
    (h : ∀ rid, data.requestId = some rid → lookupAssoc st.pending_requests rid = none) :
    (handle_resolved_request st active_sessions data kbFetch now).1.pending_requests
        = st.pending_requests ∧
    ∀ a ∈ (handle_resolved_request st active_sessions data kbFetch now).2,
      a.touchesSession = false := by
  have hknown :
      (match data.requestId with
        | some rid => (lookupAssoc st.pending_requests rid).isSome
        | none => false) = false := by
    cases hr : data.requestId with
    | none => rfl
    | some rid => simp [h rid hr]
  unfold handle_resolved_request
  rw [hknown]
  simp [Action.touchesSession]

/-- C6, witness: resolving a never-escalated id "ghost" against a state
tracking only "id1" leaves the in-flight map unchanged. -/
theorem C6_witness_unknown_requestId :
    (handle_resolved_request
        ⟨[("id1", ⟨"caller1", none, "q", 0⟩)], ⟨"KB", 0⟩⟩
        [("caller1", ⟨"session1", false⟩)]
        ⟨some "ghost", some "ans", some "caller1"⟩
        KBFetchResult.exn 10).1.pending_requests
      = [("id1", ⟨"caller1", none, "q", 0⟩)] :=
  (C6_delivery_unknown_requestId_noop
    ⟨[("id1", ⟨"caller1", none, "q", 0⟩)], ⟨"KB", 0⟩⟩
    [("caller1", ⟨"session1", false⟩)]
    ⟨some "ghost", some "ans", some "caller1"⟩
    KBFetchResult.exn 10 (by intro rid hr; cases hr; decide)).1

/-- C7: if a forced refresh's backend call fails (non-2xx status or raised
exception), the stored cache content and fetch timestamp are unchanged and
the call returns the prior content, or a sentinel unavailable/error value
if the cache was never populated; the model is total, so no exception
propagates. Moreover any call — forced or not, any fetch outcome — keeps
the content non-empty once it is non-empty. -/
theorem C7_knowledge_refresh_failure_keeps_cache
    (st : KBState) (now : Int) (fetch : KBFetchResult) (h : fetch.failed) :
    (load_knowledge_base st true now fetch).2 = st ∧
    (st.content ≠ "" → (load_knowledge_base st true now fetch).1 = st.content) ∧
    (st.content = "" →
      (load_knowledge_base st true now fetch).1 = "KNOWLEDGE BASE: Unavailable" ∨
      (load_knowledge_base st true now fetch).1 = "KNOWLEDGE BASE: Error loading") ∧
    (∀ force fetch2, st.content ≠ "" →
      ((load_knowledge_base st force now fetch2).2).content ≠ "") := by
  refine ⟨?_, ?_, ?_, fun force fetch2 hc =>
    load_knowledge_base_preserves_nonempty st force now fetch2 hc⟩
  · cases fetch with
    | response status entries =>
      have h200 : status ≠ 200 := by
        simp only [KBFetchResult.failed] at h
        omega
      simp [load_knowledge_base, h200]
    | exn => simp [load_knowledge_base]
  · intro hc
    cases fetch with
    | response status entries =>
      have h200 : status ≠ 200 := by
        simp only [KBFetchResult.failed] at h
        omega
      simp [load_knowledge_base, h200, hc]
    | exn => simp [load_knowledge_base, hc]
  · intro hc
    cases fetch with
    | response status entries =>
      have h200 : status ≠ 200 := by
        simp only [KBFetchResult.failed] at h
        omega
      simp [load_knowledge_base, h200, hc]
    | exn => simp [load_knowledge_base, hc]

/-- C7, witness: a forced refresh over a populated cache that hits an HTTP
500 leaves the cache state untouched. -/
theorem C7_witness_http_500 :
    (load_knowledge_base ⟨"KNOWLEDGE BASE: old", 10⟩ true 100
        (KBFetchResult.response 500 [])).2 = ⟨"KNOWLEDGE BASE: old", 10⟩ :=
  (C7_knowledge_refresh_failure_keeps_cache ⟨"KNOWLEDGE BASE: old", 10⟩ 100
    (KBFetchResult.response 500 []) (by right; omega)).1

/-- C9: two successive non-forced reads of a populated knowledge cache,
both within the refresh interval of the stored timestamp and with no
intervening force-refresh, return identical content, and neither call
mutates the stored content or fetch timestamp (the fetch-outcome arguments
are irrelevant: the cached branch performs no fetch). -/
theorem C9_cached_reads_idempotent
    (st : KBState) (t1 t2 : Int) (f1 f2 : KBFetchResult)
    (hc : st.content ≠ "")
    (h1 : t1 - st.lastUpdate ≤ knowledge_refresh_interval)
    (h2 : t2 - st.lastUpdate ≤ knowledge_refresh_interval) :
    (load_knowledge_base st false t1 f1).1 =
      (load_knowledge_base (load_knowledge_base st false t1 f1).2 false t2 f2).1 ∧
    (load_knowledge_base st false t1 f1).2 = st ∧
    (load_knowledge_base (load_knowledge_base st false t1 f1).2 false t2 f2).2 = st := by
  have guard1 : ¬ (false = true ∨ st.content = "" ∨
      knowledge_refresh_interval < t1 - st.lastUpdate) := by
    push_neg
    exact ⟨by simp, hc, by omega⟩
  have guard2 : ¬ (false = true ∨ st.content = "" ∨
      knowledge_refresh_interval < t2 - st.lastUpdate) := by
    push_neg
    exact ⟨by simp, hc, by omega⟩
  have c1 : load_knowledge_base st false t1 f1 = (st.content, st) := by
    unfold load_knowledge_base
    rw [if_neg guard1]
  have c2 : load_knowledge_base st false t2 f2 = (st.content, st) := by
    unfold load_knowledge_base
    rw [if_neg guard2]
  rw [c1]
  rw [c2]
  exact ⟨rfl, rfl, rfl⟩

/-- C9, witness: two cached reads at times 20 and 50 over a cache fetched
at time 0 both return the stored content and leave the state intact. -/
theorem C9_witness_two_reads :
    (load_knowledge_base ⟨"KNOWLEDGE BASE: v1", 0⟩ false 20 KBFetchResult.exn).1 =
      (load_knowledge_base
        (load_knowledge_base ⟨"KNOWLEDGE BASE: v1", 0⟩ false 20 KBFetchResult.exn).2
        false 50 (KBFetchResult.response 200 [("q", "a")])).1 :=
  (C9_cached_reads_idempotent ⟨"KNOWLEDGE BASE: v1", 0⟩ 20 50 KBFetchResult.exn
    (KBFetchResult.response 200 [("q", "a")]) (by decide) (by decide) (by decide)).1

/-- C8: the escalation-creation request body omits `callerId` and
`callerPhone` (rather than carrying null) exactly when the argument is
`None` or empty; on a 201 response, an in-flight escalation keyed by the
returned id is registered exactly in the tracked cases — in particular it
requires a truthy `callerId`, so anonymous escalations never enter the
in-flight map (for any backend response). -/
theorem C8_body_omission_and_inflight_registration
    (st : AgentState) (agent_name question : String)
    (caller_id caller_phone : Option String) (confidence : ℚ) (now : Int)
    (resp : CreateResponse) :
    ((create_help_request st agent_name question caller_id caller_phone
        confidence now resp).1.callerId = none ↔ optTruthy caller_id = false) ∧
    ((create_help_request st agent_name question caller_id caller_phone
        confidence now resp).1.callerPhone = none ↔ optTruthy caller_phone = false) ∧
    (∀ returnedId, resp = CreateResponse.response 201 returnedId →
      optTruthy returnedId = true → optTruthy caller_id = true →
      lookupAssoc (create_help_request st agent_name question caller_id caller_phone
          confidence now resp).2.2.pending_requests (returnedId.getD "")
        = some ⟨caller_id.getD "", caller_phone, question, now⟩) ∧
    (optTruthy caller_id = false →
      (create_help_request st agent_name question caller_id caller_phone
          confidence now resp).2.2.pending_requests = st.pending_requests) := by
  refine ⟨?_, ?_, ?_, ?_⟩
  · rw [create_help_request_body]
    cases hci : optTruthy caller_id with
    | true =>
      cases caller_id with
      | none => simp [optTruthy] at hci
      | some s => simp [hci]
    | false => simp [hci]
  · rw [create_help_request_body]
    cases hcp : optTruthy caller_phone with
    | true =>
      cases caller_phone with
      | none => simp [optTruthy] at hcp
      | some s => simp [hcp]
    | false => simp [hcp]
  · intro returnedId hresp hrid hci
    subst hresp
    simp only [create_help_request, if_pos rfl, hrid, hci, and_self, if_true]
    exact lookupAssoc_insertAssoc_self _ _ _
  · intro hci
    cases resp with
    | response status returnedId =>
      by_cases h201 : status = 201
      · subst h201
        simp [create_help_request, hci]
      · simp [create_help_request, h201]
    | exn => simp [create_help_request]

/-- C8, witness: a 201 creation with a truthy caller registers the returned
id, and an anonymous creation body omits `callerId`. -/
theorem C8_witness_registration :
    lookupAssoc
        (create_help_request initialAgentState "AI Voice Receptionist" "q1"
          (some "caller1") none 0 7
          (CreateResponse.response 201 (some "idA"))).2.2.pending_requests
        "idA" = some ⟨"caller1", none, "q1", 7⟩ :=
  (C8_body_omission_and_inflight_registration initialAgentState
    "AI Voice Receptionist" "q1" (some "caller1") none 0 7
    (CreateResponse.response 201 (some "idA"))).2.2.1
    (some "idA") rfl (by decide) (by decide)

/-- C4: with a configured webhook secret, a body is accepted exactly when
the signature header, stripped of an optional sha256-scheme tag, equals
the HMAC hex digest of the raw body bytes under the secret; on mismatch
the handler answers 401, performs no action, leaves the live agent state
untouched and never consults the JSON parser (its result is independent of
the parse function); with no secret configured every request passes
verification. -/
theorem C4_signature_verification_gate
    (hmacSha256Hex : String → List Nat → String) (secret : String)
    (payload : List Nat) (signature : String)
    (parse1 parse2 : List Nat → ParsedPayload)
    (active_sessions : List (String × Session)) (liveAgent : AgentState)
    (kbFetch : KBFetchResult) (now : Int) :
    (verify_webhook_signature hmacSha256Hex (some secret) payload signature = true ↔
      stripSigScheme signature = hmacSha256Hex secret payload) ∧
    (stripSigScheme signature ≠ hmacSha256Hex secret payload →
      webhook_handler (some secret) hmacSha256Hex parse1 (some signature) payload
          active_sessions liveAgent kbFetch now
        = (WebhookResponse.text 401 "Invalid signature", [], liveAgent) ∧
      webhook_handler (some secret) hmacSha256Hex parse1 (some signature) payload
          active_sessions liveAgent kbFetch now
        = webhook_handler (some secret) hmacSha256Hex parse2 (some signature) payload
            active_sessions liveAgent kbFetch now) ∧
    (∀ payload2 signature2,
      verify_webhook_signature hmacSha256Hex none payload2 signature2 = true) := by
  refine ⟨?_, fun hne => ?_, fun _ _ => rfl⟩
  · simp only [verify_webhook_signature, beq_iff_eq]
    exact eq_comm
  · have hv : verify_webhook_signature hmacSha256Hex (some secret) payload signature
        = false := by
      simp only [verify_webhook_signature, beq_eq_false_iff_ne, ne_eq]
      exact fun he => hne he.symm
    constructor
    · unfold webhook_handler
      rw [Option.getD_some, hv, if_pos rfl]
    · unfold webhook_handler
      rw [Option.getD_some, hv, if_pos rfl, if_pos rfl]

/-- C4, witness: under secret "sec" with a toy digest function returning the
secret itself, the non-matching header "bad" is rejected with 401 and no
actions, with the parse functions never consulted. -/
theorem C4_witness_mismatch_rejected :
    webhook_handler (some "sec") (fun s _ => s) (fun _ => ParsedPayload.malformed)
        (some "bad") [1, 2] [] initialAgentState KBFetchResult.exn 0
      = (WebhookResponse.text 401 "Invalid signature", [], initialAgentState) :=
  ((C4_signature_verification_gate (fun s _ => s) "sec" [1, 2] "bad"
    (fun _ => ParsedPayload.malformed)
    (fun _ => ParsedPayload.parsed none ⟨none, none, none⟩)
    [] initialAgentState KBFetchResult.exn 0).2.1 (by decide)).1

/-- C1: the failing input the claim quantifies over, evaluated. A live
agent whose `Escalate` created in-flight entry "id1" for "caller1", a live
session registered for "caller1", and a correctly-verifying
`help_request_resolved` webhook for "id1": the handler answers 200, but
because voice_agent.py:406 constructs a fresh `VoiceReceptionistAgent`
(empty `pending_requests`) instead of using the live instance, the
dispatch performs zero `generate_reply` injections and the live agent's
in-flight entry for "id1" survives — contradicting the claimed exactly-one
injection and removal. -/
theorem C1_webhook_handler_fresh_instance_defect :
    (webhook_handler none (fun _ _ => "")
        (fun _ => ParsedPayload.parsed (some "help_request_resolved")
          ⟨some "id1", some "30 days, receipt required", some "caller1"⟩)
        (some "") [1, 2, 3] [("caller1", ⟨"session1", false⟩)]
        ((create_help_request initialAgentState "AI Voice Receptionist"
            "What is your return policy?" (some "caller1") none 0 100
            (CreateResponse.response 201 (some "id1"))).2.2)
        (KBFetchResult.response 200 [("q", "a")]) 200).1
      = WebhookResponse.receivedJson (some "id1") ∧
    (webhook_handler none (fun _ _ => "")
        (fun _ => ParsedPayload.parsed (some "help_request_resolved")
          ⟨some "id1", some "30 days, receipt required", some "caller1"⟩)
        (some "") [1, 2, 3] [("caller1", ⟨"session1", false⟩)]
        ((create_help_request initialAgentState "AI Voice Receptionist"
            "What is your return policy?" (some "caller1") none 0 100
            (CreateResponse.response 201 (some "id1"))).2.2)
        (KBFetchResult.response 200 [("q", "a")]) 200).2.1.filter
        Action.touchesSession = [] ∧
    lookupAssoc
        (webhook_handler none (fun _ _ => "")
          (fun _ => ParsedPayload.parsed (some "help_request_resolved")
            ⟨some "id1", some "30 days, receipt required", some "caller1"⟩)
          (some "") [1, 2, 3] [("caller1", ⟨"session1", false⟩)]
          ((create_help_request initialAgentState "AI Voice Receptionist"
              "What is your return policy?" (some "caller1") none 0 100
              (CreateResponse.response 201 (some "id1"))).2.2)
          (KBFetchResult.response 200 [("q", "a")]) 200).2.2.pending_requests
        "id1"
      = some ⟨"caller1", none, "What is your return policy?", 100⟩ :=
  ⟨rfl, rfl, rfl⟩

end VoiceAgent
